import Mathlib

/-!
Verification of the FreeWill charity-selector (`src/charity-selector/src/charitySelector.ts`).

The TypeScript selection engine is shallowly embedded below.  Randomness
(`Math.random`, `getRandomInt`, lodash `shuffle`) is modelled by an explicit
oracle (`Choices`): each random primitive of one call is a function supplied by
the oracle, constrained only by `ChoicesValid` (integer draws are in range,
shuffles are permutations).  Every real execution of the program corresponds to
some valid oracle, and each theorem quantifies over all valid oracles.
Invocations of the random primitives are recorded in an `RngEvent` trace so
that temporal statements ("before any random draw") can be expressed.
JavaScript numbers used as counters are modelled as `Int`; thrown exceptions
become `Except.error` carrying the source's message strings.
-/

/-- `Charity` record (`types.ts`): `featured` is one of `"NATIONAL"`, `"STATE"`, `""`. -/
structure Charity where
  id : String
  name : String
  state : String
  category : String
  featured : String
deriving DecidableEq, Repr

/-- Raw CSV row for the user profile (`types.ts`). -/
structure RawUserProfile where
  id : String
  name : String
  state : String
  isMarried : String
  hasChildren : String
  hasPets : String
  age : String
deriving DecidableEq, Repr

/-- Parsed user profile (`types.ts`). -/
structure UserProfile where
  id : String
  name : String
  state : String
  isMarried : Bool
  hasChildren : Bool
  hasPets : Bool
  age : Int
deriving DecidableEq, Repr

/-- `SelectionConstraints` (`types.ts`). -/
structure SelectionConstraints where
  totalCharities : Int
  maxStateCharities : Int
  minAnimalCharitiesIfPets : Int

/-- `DEFAULT_CONSTRAINTS` (`charitySelector.ts` lines 5-9). -/
def DEFAULT_CONSTRAINTS : SelectionConstraints :=
  { totalCharities := 12, maxStateCharities := 5, minAnimalCharitiesIfPets := 4 }

/-- One invocation of a random primitive during a run:
`randInt` = `getRandomInt`, `coin` = the `Math.random() < 0.5` flip in
`applyTailoringRules`, `shuffleEv` = a lodash `shuffle` call. -/
inductive RngEvent where
  | randInt : RngEvent
  | coin : RngEvent
  | shuffleEv : RngEvent
deriving DecidableEq, Repr

/-- The random choices made by one call of `selectCharities`: one function per
random call site (tailoring sites are indexed by the rule number). -/
structure Choices where
  stateDraw : Nat → Nat
  coin : Nat → Nat → Bool
  tailorStateSh : Nat → List Charity → List Charity
  tailorNatSh : Nat → List Charity → List Charity
  fillNatSh : List Charity → List Charity
  fillStateSh : List Charity → List Charity
  finalSh : List Charity → List Charity

/-- A `Choices` oracle is valid when its integer draw is within the requested
bound and each shuffle returns a permutation of its input, which is exactly
what `getRandomInt(0, max)` and lodash `shuffle` guarantee. -/
def ChoicesValid (ch : Choices) : Prop :=
  (∀ m, ch.stateDraw m ≤ m) ∧
  (∀ i l, (ch.tailorStateSh i l).Perm l) ∧
  (∀ i l, (ch.tailorNatSh i l).Perm l) ∧
  (∀ l, (ch.fillNatSh l).Perm l) ∧
  (∀ l, (ch.fillStateSh l).Perm l) ∧
  (∀ l, (ch.finalSh l).Perm l)

/-- `validateCharity` (`csvReader.ts` lines 84-106); JS falsiness of a string
field is emptiness. -/
def validateCharity (c : Charity) : Bool :=
  if c.id == "" || c.name == "" then false
  else if c.featured != "" && !(["NATIONAL", "STATE", ""].contains c.featured) then false
  else if c.featured == "STATE" && c.state == "" then false
  else true

/-- `parseUserProfile` (`csvReader.ts` lines 63-82); the local catch rewraps
the missing-fields error. -/
def parseUserProfile (r : RawUserProfile) : Except String UserProfile :=
  if r.id == "" || r.name == "" || r.state == "" then
    Except.error "Failed to parse user profile: Profile missing required fields (id, name, state)"
  else
    Except.ok
      { id := r.id, name := r.name, state := r.state,
        isMarried := r.isMarried.toUpper == "TRUE",
        hasChildren := r.hasChildren.toUpper == "TRUE",
        hasPets := r.hasPets.toUpper == "TRUE",
        age := (r.age.toInt?).getD 0 }

/-- `selectRandomItems` (`charitySelector.ts` lines 15-26), with the shuffle
supplied by the oracle; also returns the RNG events it performed. -/
def selectRandomItems {α : Type} (sh : List α → List α) (items : List α) (count : Int) :
    List α × List RngEvent :=
  if count ≤ 0 then ([], [])
  else if (items.length : Int) ≤ count then (sh items, [RngEvent.shuffleEv])
  else ((sh items).take count.toNat, [RngEvent.shuffleEv])

/-- `TailoringRule` (`types.ts`). -/
structure TailoringRule where
  applies : UserProfile → Bool
  getMinCount : UserProfile → Int
  getCategory : Unit → String

/-- `createTailoringRules` (`charitySelector.ts` lines 28-36). -/
def createTailoringRules : List TailoringRule :=
  [{ applies := fun profile => profile.hasPets,
     getMinCount := fun _ => DEFAULT_CONSTRAINTS.minAnimalCharitiesIfPets,
     getCategory := fun _ => "ANIMAL_RELATED" }]

/-- The random distribution loop of `applyTailoringRules` (lines 82-98):
iteration `i` picks state (`coin i = true`) or national, subject to the caps;
a coin event is recorded only when both sides can still pick. -/
def distribLoop (coin : Nat → Bool) (maxFS maxFN : Int) :
    Nat → Nat → Int → Int → List RngEvent → Int × Int × List RngEvent
  | _, 0, fS, fN, evs => (fS, fN, evs)
  | i, Nat.succ fuel, fS, fN, evs =>
    if fS < maxFS then
      if fN < maxFN then
        if coin i then
          distribLoop coin maxFS maxFN (i + 1) fuel (fS + 1) fN (evs ++ [RngEvent.coin])
        else
          distribLoop coin maxFS maxFN (i + 1) fuel fS (fN + 1) (evs ++ [RngEvent.coin])
      else
        distribLoop coin maxFS maxFN (i + 1) fuel (fS + 1) fN evs
    else if fN < maxFN then
      distribLoop coin maxFS maxFN (i + 1) fuel fS (fN + 1) evs
    else
      distribLoop coin maxFS maxFN (i + 1) fuel fS fN evs

/-- Accumulator of `applyTailoringRules` (lines 47-50), plus the RNG events. -/
structure TailorState where
  national : List Charity
  state : List Charity
  remainingNational : Int
  remainingState : Int
  events : List RngEvent
deriving Repr

/-- Body of the rule loop of `applyTailoringRules` (lines 52-112) for rule
number `idx`. -/
def applyRule (ch : Choices) (idx : Nat) (profile : UserProfile)
    (nationalCharities stateCharities : List Charity) (rule : TailoringRule)
    (st : TailorState) : TailorState :=
  if !(rule.applies profile) then st
  else
    let category := rule.getCategory ()
    let minCount := rule.getMinCount profile
    let availableNational := nationalCharities.filter fun c =>
      c.category == category && !(st.national.any fun s => s.id == c.id)
    let availableState := stateCharities.filter fun c =>
      c.category == category && !(st.state.any fun s => s.id == c.id)
    let totalAvailable : Int := (availableNational.length : Int) + (availableState.length : Int)
    let actualMinCount := min (min minCount totalAvailable)
      (st.remainingNational + st.remainingState)
    if actualMinCount ≤ 0 then st
    else
      let maxFromState := min st.remainingState (availableState.length : Int)
      let maxFromNational := min st.remainingNational (availableNational.length : Int)
      let r := distribLoop (ch.coin idx) maxFromState maxFromNational 0 actualMinCount.toNat 0 0 []
      let fromState := r.1
      let fromNational := r.2.1
      let newState := selectRandomItems (ch.tailorStateSh idx) availableState fromState
      let newNational := selectRandomItems (ch.tailorNatSh idx) availableNational fromNational
      { national := st.national ++ newNational.1,
        state := st.state ++ newState.1,
        remainingNational := st.remainingNational - fromNational,
        remainingState := st.remainingState - fromState,
        events := st.events ++ r.2.2 ++ newState.2 ++ newNational.2 }

/-- The `for (const rule of rules)` loop of `applyTailoringRules`. -/
def applyRulesGo (ch : Choices) (profile : UserProfile)
    (nationalCharities stateCharities : List Charity) :
    Nat → List TailoringRule → TailorState → TailorState
  | _, [], st => st
  | i, rule :: rest, st =>
    applyRulesGo ch profile nationalCharities stateCharities (i + 1) rest
      (applyRule ch i profile nationalCharities stateCharities rule st)

/-- `applyTailoringRules` (`charitySelector.ts` lines 38-119). -/
def applyTailoringRules (ch : Choices) (profile : UserProfile)
    (nationalCharities stateCharities : List Charity)
    (selectedNationalCount selectedStateCount : Int) : TailorState :=
  applyRulesGo ch profile nationalCharities stateCharities 0 createTailoringRules
    { national := [], state := [], remainingNational := selectedNationalCount,
      remainingState := selectedStateCount, events := [] }

/-- The valid charities after filtering (`charitySelector.ts` line 137). -/
def validCharitiesOf (rawCharities : List Charity) : List Charity :=
  rawCharities.filter validateCharity

/-- The national pool (`charitySelector.ts` line 145). -/
def nationalPool (rawCharities : List Charity) : List Charity :=
  (validCharitiesOf rawCharities).filter fun c => c.featured == "NATIONAL"

/-- The state pool matching the profile's state (lines 146-148). -/
def statePool (rawCharities : List Charity) (profile : UserProfile) : List Charity :=
  (validCharitiesOf rawCharities).filter fun c =>
    c.featured == "STATE" && c.state == profile.state

/-- Number of eligible candidates: national-featured plus state-featured
matching the profile's state. -/
def eligibleCount (rawCharities : List Charity) (profile : UserProfile) : Nat :=
  (nationalPool rawCharities).length + (statePool rawCharities profile).length

/-- The animal-category members of a pool. -/
def animalCharities (l : List Charity) : List Charity :=
  l.filter fun c => c.category == "ANIMAL_RELATED"

/-- Message of the upfront throw at line 141. -/
def insufficientCharitiesMsg (n : Nat) : String :=
  "Insufficient charities: need " ++ toString DEFAULT_CONSTRAINTS.totalCharities ++
    ", have " ++ toString n

/-- Message of the capacity-planning throw at line 208. -/
def insufficientTotalMsg (natLen stateSel : Int) : String :=
  "Insufficient total charities: need " ++ toString DEFAULT_CONSTRAINTS.totalCharities ++
    ", have " ++ toString (natLen + stateSel) ++ " (" ++ toString natLen ++
    " national + " ++ toString stateSel ++ " state)"

/-- Message of the invariant throw at line 244. -/
def countMismatchMsg (expected : Int) (got : Nat) : String :=
  "Selection count mismatch: expected " ++ toString expected ++ ", got " ++ toString got

/-- The `hasPets` redistribution block (`charitySelector.ts` lines 157-185);
returns the updated `(selectedStateCount, selectedNationalCount)`. -/
def adjustForPets (hasPets : Bool) (nationalCharities stateCharities : List Charity)
    (selectedStateCount selectedNationalCount : Int) : Int × Int :=
  if hasPets then
    let availableAnimalNational : Int := ((animalCharities nationalCharities).length : Int)
    let availableAnimalState : Int := ((animalCharities stateCharities).length : Int)
    let totalAvailableAnimals := availableAnimalNational + availableAnimalState
    if DEFAULT_CONSTRAINTS.minAnimalCharitiesIfPets ≤ totalAvailableAnimals then
      let maxAnimalFromState := min availableAnimalState selectedStateCount
      let maxAnimalFromNational := min availableAnimalNational selectedNationalCount
      if maxAnimalFromState + maxAnimalFromNational <
          DEFAULT_CONSTRAINTS.minAnimalCharitiesIfPets then
        let neededMoreAnimals := DEFAULT_CONSTRAINTS.minAnimalCharitiesIfPets -
          (maxAnimalFromState + maxAnimalFromNational)
        if maxAnimalFromNational < availableAnimalNational ∧
            selectedNationalCount < (nationalCharities.length : Int) then
          let canIncrease := min (min neededMoreAnimals
            (availableAnimalNational - maxAnimalFromNational))
            ((nationalCharities.length : Int) - selectedNationalCount)
          (selectedStateCount - canIncrease, selectedNationalCount + canIncrease)
        else if maxAnimalFromState < availableAnimalState ∧
            selectedStateCount <
              min DEFAULT_CONSTRAINTS.maxStateCharities (stateCharities.length : Int) then
          let canIncrease := min (min neededMoreAnimals
            (availableAnimalState - maxAnimalFromState))
            (min DEFAULT_CONSTRAINTS.maxStateCharities (stateCharities.length : Int) -
              selectedStateCount)
          (selectedStateCount + canIncrease, selectedNationalCount - canIncrease)
        else (selectedStateCount, selectedNationalCount)
      else (selectedStateCount, selectedNationalCount)
    else (selectedStateCount, selectedNationalCount)
  else (selectedStateCount, selectedNationalCount)

/-- The shortage adjustment and hard supply check (`charitySelector.ts`
lines 189-211); returns the final `(selectedStateCount, selectedNationalCount)`
or the capacity-planning error. -/
def adjustForSupply (natLen stateLen : Int)
    (selectedStateCount selectedNationalCount : Int) : Except String (Int × Int) :=
  if natLen < selectedNationalCount then
    let shortage := selectedNationalCount - natLen
    let maxPossibleStateAdjusted := min DEFAULT_CONSTRAINTS.maxStateCharities stateLen
    let canAddToState := min shortage (maxPossibleStateAdjusted - selectedStateCount)
    let selectedStateCount1 := selectedStateCount + canAddToState
    let selectedNationalCount1 := selectedNationalCount - canAddToState
    if natLen < selectedNationalCount1 then
      let totalAvailable := natLen + selectedStateCount1
      if totalAvailable < DEFAULT_CONSTRAINTS.totalCharities then
        Except.error (insufficientTotalMsg natLen selectedStateCount1)
      else Except.ok (selectedStateCount1, natLen)
    else Except.ok (selectedStateCount1, selectedNationalCount1)
  else Except.ok (selectedStateCount, selectedNationalCount)

/-- Capacity planning (`charitySelector.ts` lines 152-211): the random state
count draw, the pet redistribution, and the shortage adjustment. -/
def planCounts (ch : Choices) (nationalCharities stateCharities : List Charity)
    (userProfile : UserProfile) : Except String (Int × Int) :=
  let maxPossibleState : Int :=
    min DEFAULT_CONSTRAINTS.maxStateCharities (stateCharities.length : Int)
  let selectedStateCount : Int := (ch.stateDraw maxPossibleState.toNat : Nat)
  let selectedNationalCount : Int := DEFAULT_CONSTRAINTS.totalCharities - selectedStateCount
  let adjusted := adjustForPets userProfile.hasPets nationalCharities stateCharities
    selectedStateCount selectedNationalCount
  adjustForSupply (nationalCharities.length : Int) (stateCharities.length : Int)
    adjusted.1 adjusted.2

/-- Tailoring, filling, assembly, final invariant check and final shuffle
(`charitySelector.ts` lines 213-253). -/
def assemble (ch : Choices) (userProfile : UserProfile)
    (nationalCharities stateCharities : List Charity)
    (selectedNationalCount selectedStateCount : Int) :
    Except String (List Charity) × List RngEvent :=
  let tailoringResult := applyTailoringRules ch userProfile nationalCharities stateCharities
    selectedNationalCount selectedStateCount
  let remainingNationalCharities := nationalCharities.filter fun c =>
    !(tailoringResult.national.any fun s => s.id == c.id)
  let remainingStateCharities := stateCharities.filter fun c =>
    !(tailoringResult.state.any fun s => s.id == c.id)
  let additionalNational := selectRandomItems ch.fillNatSh remainingNationalCharities
    tailoringResult.remainingNational
  let additionalState := selectRandomItems ch.fillStateSh remainingStateCharities
    tailoringResult.remainingState
  let finalSelection := tailoringResult.national ++ tailoringResult.state ++
    additionalNational.1 ++ additionalState.1
  let expectedCount := min DEFAULT_CONSTRAINTS.totalCharities
    ((nationalCharities.length : Int) + (stateCharities.length : Int))
  if (finalSelection.length : Int) ≠ expectedCount then
    (Except.error (countMismatchMsg expectedCount finalSelection.length),
      tailoringResult.events ++ additionalNational.2 ++ additionalState.2)
  else
    (Except.ok (ch.finalSh finalSelection),
      tailoringResult.events ++ additionalNational.2 ++ additionalState.2 ++ [RngEvent.shuffleEv])

/-- The selection engine of `selectCharities` (`charitySelector.ts`
lines 137-253), from the validated charity rows and the parsed profile to the
final list, together with the trace of RNG invocations performed. -/
def selectCore (ch : Choices) (rawCharities : List Charity) (userProfile : UserProfile) :
    Except String (List Charity) × List RngEvent :=
  let validCharities := validCharitiesOf rawCharities
  if (validCharities.length : Int) < DEFAULT_CONSTRAINTS.totalCharities then
    (Except.error (insufficientCharitiesMsg validCharities.length), [])
  else
    let nationalCharities := nationalPool rawCharities
    let stateCharities := statePool rawCharities userProfile
    match planCounts ch nationalCharities stateCharities userProfile with
    | Except.error e => (Except.error e, [RngEvent.randInt])
    | Except.ok counts =>
      let r := assemble ch userProfile nationalCharities stateCharities counts.2 counts.1
      (r.1, RngEvent.randInt :: r.2)

/-- `selectCharities` (`charitySelector.ts` lines 121-259): profile lookup and
parsing, the engine, and the outer catch that rewraps every error message. -/
def selectCharities (ch : Choices) (rawCharities : List Charity)
    (rawProfiles : List RawUserProfile) : Except String (List Charity) × List RngEvent :=
  let inner : Except String (List Charity) × List RngEvent :=
    match rawProfiles with
    | [] => (Except.error "No user profile found in profile CSV", [])
    | rawProfile :: _ =>
      match parseUserProfile rawProfile with
      | Except.error e => (Except.error e, [])
      | Except.ok userProfile => selectCore ch rawCharities userProfile
  match inner with
  | (Except.error e, evs) => (Except.error ("Charity selection failed: " ++ e), evs)
  | (Except.ok res, evs) => (Except.ok res, evs)


/-! ### Concrete inputs used to instantiate the theorems -/

/-- A concrete valid oracle: the integer draw is `0` and every shuffle is the
identity permutation. -/
def ch0 : Choices :=
  { stateDraw := fun _ => 0, coin := fun _ _ => false,
    tailorStateSh := fun _ l => l, tailorNatSh := fun _ l => l,
    fillNatSh := fun l => l, fillStateSh := fun l => l, finalSh := fun l => l }

/-- A nationally featured charity. -/
def mkNat (i : Nat) (cat : String) : Charity :=
  { id := toString i, name := "nat" ++ toString i, state := "NY",
    category := cat, featured := "NATIONAL" }

/-- A state-featured charity in New York. -/
def mkState (i : Nat) (cat : String) : Charity :=
  { id := toString i, name := "st" ++ toString i, state := "NY",
    category := cat, featured := "STATE" }

/-- A valid but non-featured charity. -/
def mkPlain (i : Nat) : Charity :=
  { id := toString i, name := "pl" ++ toString i, state := "",
    category := "OTHER", featured := "" }

/-- A profile without pets. -/
def p1 : UserProfile :=
  { id := "u1", name := "User One", state := "NY",
    isMarried := false, hasChildren := false, hasPets := false, age := 30 }

/-- A profile with pets. -/
def p2 : UserProfile :=
  { id := "u2", name := "User Two", state := "NY",
    isMarried := false, hasChildren := false, hasPets := true, age := 30 }

/-- Twelve national charities, none animal-related. -/
def raw1 : List Charity := (List.range 12).map fun i => mkNat i "OTHER"

/-- Twelve national charities, four of them animal-related. -/
def raw2 : List Charity :=
  ((List.range 4).map fun i => mkNat i "ANIMAL_RELATED") ++
    ((List.range 8).map fun i => mkNat (4 + i) "OTHER")

/-- Eight national charities and four New York state charities. -/
def raw9 : List Charity :=
  ((List.range 8).map fun i => mkNat i "OTHER") ++
    ((List.range 4).map fun i => mkState (8 + i) "OTHER")

/-- Twelve valid but non-featured charities: the eligible pools are empty. -/
def raw0 : List Charity := (List.range 12).map mkPlain

/-- The concrete run of the engine on `raw1` with the identity oracle. -/
def res1 : List Charity :=
  match (selectCore ch0 raw1 p1).1 with
  | Except.ok r => r
  | Except.error _ => []

/-- The concrete run of the engine on `raw2` with the identity oracle. -/
def res2 : List Charity :=
  match (selectCore ch0 raw2 p2).1 with
  | Except.ok r => r
  | Except.error _ => []

/-- The concrete run of the engine on `raw9` with the identity oracle. -/
def res9 : List Charity :=
  match (selectCore ch0 raw9 p1).1 with
  | Except.ok r => r
  | Except.error _ => []

/-! ### List helper lemmas -/

lemma length_filter_add_length_filter_not {α : Type} (l : List α) (p : α → Bool) :
    (l.filter p).length + (l.filter fun a => !(p a)).length = l.length := by
  induction l with
  | nil => simp
  | cons a t ih =>
    by_cases h : p a <;> simp [List.filter_cons, h] <;> omega

lemma nodup_id_inj {pool : List Charity} (hnod : (pool.map Charity.id).Nodup)
    {c s : Charity} (hc : c ∈ pool) (hs : s ∈ pool) (h : c.id = s.id) : c = s :=
  List.inj_on_of_nodup_map hnod hc hs h

/-! ### Facts about `selectRandomItems` -/

lemma selectRandomItems_subset {α : Type} {sh : List α → List α}
    (hsh : ∀ l, (sh l).Perm l) (items : List α) (count : Int) :
    ∀ c ∈ (selectRandomItems sh items count).1, c ∈ items := by
  intro c hc
  unfold selectRandomItems at hc
  split at hc
  · simp at hc
  · split at hc
    · exact (hsh items).mem_iff.mp hc
    · exact (hsh items).mem_iff.mp (List.mem_of_mem_take hc)

lemma selectRandomItems_length {α : Type} {sh : List α → List α}
    (hsh : ∀ l, (sh l).Perm l) (items : List α) (count : Int) (hc : 0 ≤ count) :
    ((selectRandomItems sh items count).1).length = min count.toNat items.length := by
  unfold selectRandomItems
  split
  · have : count = 0 := le_antisymm (by assumption) hc
    subst this
    simp
  · split
    · rw [(hsh items).length_eq]
      omega
    · rw [List.length_take, (hsh items).length_eq]

lemma selectRandomItems_all {α : Type} {sh : List α → List α}
    (hsh : ∀ l, (sh l).Perm l) (items : List α) (count : Int)
    (h : (items.length : Int) ≤ count) :
    ((selectRandomItems sh items count).1).Perm items := by
  unfold selectRandomItems
  split
  · have hlen : items.length = 0 := by omega
    rw [List.length_eq_zero] at hlen
    subst hlen
    exact List.Perm.refl _
  · exact hsh items

lemma selectRandomItems_nodup {α β : Type} {sh : List α → List α}
    (hsh : ∀ l, (sh l).Perm l) (items : List α) (count : Int) (f : α → β)
    (hnod : (items.map f).Nodup) :
    (((selectRandomItems sh items count).1).map f).Nodup := by
  have h1 : ((sh items).map f).Nodup := (((hsh items).map f).nodup_iff).mpr hnod
  unfold selectRandomItems
  split
  · simp
  · split
    · exact h1
    · rw [List.map_take]
      exact ((List.take_sublist _ _).nodup) h1

lemma selectRandomItems_length_le {α : Type} {sh : List α → List α}
    (hsh : ∀ l, (sh l).Perm l) (items : List α) (count : Int) :
    ((selectRandomItems sh items count).1.length : Int) ≤ max count 0 := by
  unfold selectRandomItems
  split
  · simp
  · split
    · rw [(hsh items).length_eq]; omega
    · rw [List.length_take, (hsh items).length_eq]; omega

/-! ### The distribution loop invariant -/

lemma distribLoop_spec (coin : Nat → Bool) (maxFS maxFN : Int) :
    ∀ (n i : Nat) (fS fN : Int) (evs : List RngEvent),
      0 ≤ fS → fS ≤ maxFS → 0 ≤ fN → fN ≤ maxFN →
      (distribLoop coin maxFS maxFN i n fS fN evs).1 +
          (distribLoop coin maxFS maxFN i n fS fN evs).2.1 =
        min (fS + fN + (n : Int)) (maxFS + maxFN) ∧
      fS ≤ (distribLoop coin maxFS maxFN i n fS fN evs).1 ∧
      (distribLoop coin maxFS maxFN i n fS fN evs).1 ≤ maxFS ∧
      fN ≤ (distribLoop coin maxFS maxFN i n fS fN evs).2.1 ∧
      (distribLoop coin maxFS maxFN i n fS fN evs).2.1 ≤ maxFN := by
  intro n
  induction n with
  | zero =>
    intro i fS fN evs h1 h2 h3 h4
    simp only [distribLoop]
    refine ⟨?_, le_refl _, h2, le_refl _, h4⟩
    omega
  | succ m ih =>
    intro i fS fN evs h1 h2 h3 h4
    rw [distribLoop]
    split
    · split
      · split
        · rcases ih (i + 1) (fS + 1) fN (evs ++ [RngEvent.coin])
            (by omega) (by omega) h3 h4 with ⟨e1, e2, e3, e4, e5⟩
          refine ⟨?_, by omega, e3, by omega, e5⟩
          rw [e1]; push_cast; omega
        · rcases ih (i + 1) fS (fN + 1) (evs ++ [RngEvent.coin])
            h1 h2 (by omega) (by omega) with ⟨e1, e2, e3, e4, e5⟩
          refine ⟨?_, by omega, e3, by omega, e5⟩
          rw [e1]; push_cast; omega
      · rcases ih (i + 1) (fS + 1) fN evs (by omega) (by omega) h3 h4 with
          ⟨e1, e2, e3, e4, e5⟩
        refine ⟨?_, by omega, e3, by omega, e5⟩
        rw [e1]; push_cast; omega
    · split
      · rcases ih (i + 1) fS (fN + 1) evs h1 h2 (by omega) (by omega) with
          ⟨e1, e2, e3, e4, e5⟩
        refine ⟨?_, by omega, e3, by omega, e5⟩
        rw [e1]; push_cast; omega
      · rcases ih (i + 1) fS fN evs h1 h2 h3 h4 with ⟨e1, e2, e3, e4, e5⟩
        refine ⟨?_, by omega, e3, by omega, e5⟩
        rw [e1]; push_cast; omega

/-! ### Removing already-selected items from a pool (the fill stage filters) -/

lemma matched_length_le (pool sel : List Charity)
    (hnod : (pool.map Charity.id).Nodup) :
    (pool.filter fun c => sel.any fun s => s.id == c.id).length ≤ sel.length := by
  have h1 : ((pool.filter fun c => sel.any fun s => s.id == c.id).map Charity.id).Nodup :=
    ((List.filter_sublist pool).map Charity.id).nodup hnod
  have h2 : (pool.filter fun c => sel.any fun s => s.id == c.id).map Charity.id ⊆
      sel.map Charity.id := by
    intro x hx
    rcases List.mem_map.mp hx with ⟨c, hc, rfl⟩
    rcases List.any_eq_true.mp (List.mem_filter.mp hc).2 with ⟨s, hs, hmatch⟩
    have hid : s.id = c.id := by simpa using hmatch
    exact hid ▸ List.mem_map_of_mem Charity.id hs
  calc (pool.filter fun c => sel.any fun s => s.id == c.id).length
      = ((pool.filter fun c => sel.any fun s => s.id == c.id).map Charity.id).length :=
        (List.length_map _ _).symm
    _ ≤ (sel.map Charity.id).length := (List.subperm_of_subset h1 h2).length_le
    _ = sel.length := List.length_map _ _

lemma matched_length_ge (pool sel : List Charity)
    (hselnod : (sel.map Charity.id).Nodup) (hsub : ∀ s ∈ sel, s ∈ pool) :
    sel.length ≤ (pool.filter fun c => sel.any fun s => s.id == c.id).length := by
  have h2 : sel.map Charity.id ⊆
      (pool.filter fun c => sel.any fun s => s.id == c.id).map Charity.id := by
    intro x hx
    rcases List.mem_map.mp hx with ⟨s, hs, rfl⟩
    refine List.mem_map_of_mem Charity.id (List.mem_filter.mpr ⟨hsub s hs, ?_⟩)
    exact List.any_eq_true.mpr ⟨s, hs, by simp⟩
  calc sel.length = (sel.map Charity.id).length := (List.length_map _ _).symm
    _ ≤ _ := (List.subperm_of_subset hselnod h2).length_le
    _ = _ := List.length_map _ _

lemma remaining_length_ge (pool sel : List Charity)
    (hnod : (pool.map Charity.id).Nodup) :
    (pool.length : Int) - sel.length ≤
      ((pool.filter fun c => !(sel.any fun s => s.id == c.id)).length : Int) := by
  have h := length_filter_add_length_filter_not pool fun c => sel.any fun s => s.id == c.id
  have h1 := matched_length_le pool sel hnod
  omega

lemma remaining_length_eq (pool sel : List Charity)
    (hnod : (pool.map Charity.id).Nodup) (hselnod : (sel.map Charity.id).Nodup)
    (hsub : ∀ s ∈ sel, s ∈ pool) :
    ((pool.filter fun c => !(sel.any fun s => s.id == c.id)).length : Int) =
      (pool.length : Int) - sel.length := by
  have h := length_filter_add_length_filter_not pool fun c => sel.any fun s => s.id == c.id
  have h1 := matched_length_le pool sel hnod
  have h2 := matched_length_ge pool sel hselnod hsub
  omega

lemma mem_sel_or_remaining {pool sel : List Charity}
    (hnod : (pool.map Charity.id).Nodup) (hsub : ∀ s ∈ sel, s ∈ pool)
    {c : Charity} (hc : c ∈ pool) :
    c ∈ sel ∨ c ∈ pool.filter fun x => !(sel.any fun s => s.id == x.id) := by
  cases hb : (sel.any fun s => s.id == c.id) with
  | true =>
    rcases List.any_eq_true.mp hb with ⟨s, hs, hmatch⟩
    have hid : s.id = c.id := by simpa using hmatch
    left
    exact (nodup_id_inj hnod hc (hsub s hs) hid.symm) ▸ hs
  | false =>
    right
    exact List.mem_filter.mpr ⟨hc, by simp [hb]⟩

lemma mem_remaining_not_sel {pool sel : List Charity} {c : Charity}
    (hc : c ∈ pool.filter fun x => !(sel.any fun s => s.id == x.id)) :
    ∀ s ∈ sel, s.id ≠ c.id := by
  intro s hs heq
  have h2 := (List.mem_filter.mp hc).2
  simp only [Bool.not_eq_true', List.any_eq_false] at h2
  exact h2 s hs (by simp [heq])

/-! ### Characterization of the tailoring stage -/

lemma applyTailoringRules_eq (ch : Choices) (profile : UserProfile)
    (nat st : List Charity) (snc ssc : Int) :
    applyTailoringRules ch profile nat st snc ssc =
      applyRule ch 0 profile nat st
        { applies := fun p => p.hasPets,
          getMinCount := fun _ => DEFAULT_CONSTRAINTS.minAnimalCharitiesIfPets,
          getCategory := fun _ => "ANIMAL_RELATED" }
        ⟨[], [], snc, ssc, []⟩ := rfl

lemma tailoring_spec (ch : Choices) (profile : UserProfile)
    (nat st : List Charity) (snc ssc : Int)
    (hv : ChoicesValid ch) (hns : 0 ≤ snc) (hss : 0 ≤ ssc)
    (tr : TailorState) (htr : tr = applyTailoringRules ch profile nat st snc ssc) :
    ∃ fS fN : Int,
      tr.remainingNational = snc - fN ∧
      tr.remainingState = ssc - fS ∧
      0 ≤ fS ∧ fS ≤ ssc ∧ 0 ≤ fN ∧ fN ≤ snc ∧
      (tr.national.length : Int) = fN ∧
      (tr.state.length : Int) = fS ∧
      (∀ c ∈ tr.national, c ∈ nat ∧ c.category = "ANIMAL_RELATED") ∧
      (∀ c ∈ tr.state, c ∈ st ∧ c.category = "ANIMAL_RELATED") ∧
      ((nat.map Charity.id).Nodup → (tr.national.map Charity.id).Nodup) ∧
      ((st.map Charity.id).Nodup → (tr.state.map Charity.id).Nodup) ∧
      (profile.hasPets = true →
        4 ≤ ((animalCharities nat).length : Int) + ((animalCharities st).length : Int) →
        4 ≤ min ((animalCharities st).length : Int) ssc +
            min ((animalCharities nat).length : Int) snc →
        fS + fN = 4) := by
  obtain ⟨hdrw, htsh, htnh, hfnh, hfsh, hfih⟩ := hv
  rw [applyTailoringRules_eq] at htr
  unfold applyRule at htr
  cases hp : profile.hasPets with
  | false =>
    simp only [hp, Bool.not_false, if_true] at htr
    refine ⟨0, 0, ?_, ?_, le_refl _, hss, le_refl _, hns, ?_, ?_, ?_, ?_, ?_, ?_, ?_⟩ <;>
      simp [htr]
  | true =>
    simp only [hp, Bool.not_true, Bool.false_eq_true, if_false, List.any_nil,
      Bool.not_false, Bool.and_true, List.nil_append] at htr
    by_cases hmin :
        min (min DEFAULT_CONSTRAINTS.minAnimalCharitiesIfPets
            (((nat.filter fun c => c.category == "ANIMAL_RELATED").length : Int) +
              ((st.filter fun c => c.category == "ANIMAL_RELATED").length : Int)))
          (snc + ssc) ≤ 0
    · rw [if_pos hmin] at htr
      refine ⟨0, 0, ?_, ?_, le_refl _, hss, le_refl _, hns, ?_, ?_, ?_, ?_, ?_, ?_, ?_⟩ <;>
        simp [htr]
      simp only [animalCharities] at *
      simp only [DEFAULT_CONSTRAINTS] at hmin
      omega
    · rw [if_neg hmin] at htr
      set A : Int := ((nat.filter fun c => c.category == "ANIMAL_RELATED").length : Int)
        with hA
      set B : Int := ((st.filter fun c => c.category == "ANIMAL_RELATED").length : Int)
        with hB
      set amc : Int := min (min DEFAULT_CONSTRAINTS.minAnimalCharitiesIfPets (A + B))
        (snc + ssc) with hamc
      obtain ⟨hsum, hl1, hl2, hl3, hl4⟩ :=
        distribLoop_spec (ch.coin 0) (min ssc B) (min snc A) amc.toNat 0 0 0 []
          (le_refl 0) (le_min hss (Int.ofNat_nonneg _)) (le_refl 0)
          (le_min hns (Int.ofNat_nonneg _))
      set r := distribLoop (ch.coin 0) (min ssc B) (min snc A) 0 amc.toNat 0 0 [] with hr
      refine ⟨r.1, r.2.1, ?_, ?_, ?_, ?_, ?_, ?_, ?_, ?_, ?_, ?_, ?_, ?_, ?_⟩
      · simp [htr]
      · simp [htr]
      · omega
      · omega
      · omega
      · omega
      · simp only [htr]
        rw [selectRandomItems_length (htnh 0) _ _ (by omega)]
        omega
      · simp only [htr]
        rw [selectRandomItems_length (htsh 0) _ _ (by omega)]
        omega
      · simp only [htr]
        intro c hc
        have hmem := selectRandomItems_subset (htnh 0) _ _ c hc
        have := List.mem_filter.mp hmem
        exact ⟨this.1, by simpa using this.2⟩
      · simp only [htr]
        intro c hc
        have hmem := selectRandomItems_subset (htsh 0) _ _ c hc
        have := List.mem_filter.mp hmem
        exact ⟨this.1, by simpa using this.2⟩
      · simp only [htr]
        intro hnod
        exact selectRandomItems_nodup (htnh 0) _ _ Charity.id
          (((List.filter_sublist nat).map Charity.id).nodup hnod)
      · simp only [htr]
        intro hnod
        exact selectRandomItems_nodup (htsh 0) _ _ Charity.id
          (((List.filter_sublist st).map Charity.id).nodup hnod)
      · intro _ hAB hG
        simp only [animalCharities] at hAB hG
        rw [← hA, ← hB] at hAB hG
        simp only [DEFAULT_CONSTRAINTS] at hamc
        omega

/-! ### Characterization of capacity planning -/

lemma adjustForPets_bounds (hp : Bool) (nat st : List Charity) (ssc snc : Int)
    (hsum : ssc + snc = 12) (h0 : 0 ≤ ssc) (h5 : ssc ≤ min 5 (st.length : Int)) :
    (adjustForPets hp nat st ssc snc).1 + (adjustForPets hp nat st ssc snc).2 = 12 ∧
    0 ≤ (adjustForPets hp nat st ssc snc).1 ∧
    (adjustForPets hp nat st ssc snc).1 ≤ min 5 (st.length : Int) := by
  simp only [adjustForPets, DEFAULT_CONSTRAINTS]
  split_ifs <;> refine ⟨?_, ?_, ?_⟩ <;> omega

lemma adjustForPets_G (nat st : List Charity) (ssc snc : Int)
    (hsum : ssc + snc = 12) (h0 : 0 ≤ ssc) (h5 : ssc ≤ min 5 (st.length : Int))
    (hBlen : ((animalCharities st).length : Int) ≤ (st.length : Int))
    (hAB : 4 ≤ ((animalCharities nat).length : Int) + ((animalCharities st).length : Int)) :
    4 ≤ min ((animalCharities st).length : Int) (adjustForPets true nat st ssc snc).1 +
        min ((animalCharities nat).length : Int) (adjustForPets true nat st ssc snc).2 := by
  simp only [adjustForPets, DEFAULT_CONSTRAINTS, animalCharities] at *
  split_ifs <;> omega

lemma adjustForSupply_ok_bounds (natLen stateLen ssc snc ssc' snc' : Int)
    (hsum : ssc + snc = 12) (h0 : 0 ≤ ssc) (h5 : ssc ≤ min 5 stateLen)
    (h : adjustForSupply natLen stateLen ssc snc = Except.ok (ssc', snc')) :
    ssc' + snc' = 12 ∧ 0 ≤ ssc' ∧ ssc' ≤ min 5 stateLen ∧ 0 ≤ snc' ∧
      snc' ≤ natLen ∧ ssc ≤ ssc' := by
  unfold adjustForSupply at h
  simp only [DEFAULT_CONSTRAINTS] at h
  split at h
  · split at h
    · split at h
      · exact absurd h (by simp)
      · simp only [Except.ok.injEq, Prod.mk.injEq] at h
        obtain ⟨rfl, rfl⟩ := h
        refine ⟨?_, ?_, ?_, ?_, ?_, ?_⟩ <;> omega
    · simp only [Except.ok.injEq, Prod.mk.injEq] at h
      obtain ⟨rfl, rfl⟩ := h
      refine ⟨?_, ?_, ?_, ?_, ?_, ?_⟩ <;> omega
  · simp only [Except.ok.injEq, Prod.mk.injEq] at h
    obtain ⟨rfl, rfl⟩ := h
    refine ⟨?_, ?_, ?_, ?_, ?_, ?_⟩ <;> omega

lemma adjustForSupply_ok_exists (natLen stateLen ssc snc : Int)
    (hsum : ssc + snc = 12) (h0 : 0 ≤ ssc) (h5 : ssc ≤ min 5 stateLen)
    (hsuff : 12 ≤ natLen + min 5 stateLen) :
    ∃ q, adjustForSupply natLen stateLen ssc snc = Except.ok q := by
  unfold adjustForSupply
  simp only [DEFAULT_CONSTRAINTS]
  split_ifs with h1 h2 h3
  · omega
  · exact ⟨_, rfl⟩
  · exact ⟨_, rfl⟩
  · exact ⟨_, rfl⟩

lemma adjustForSupply_error_exists (natLen stateLen ssc snc : Int)
    (hsum : ssc + snc = 12) (h0 : 0 ≤ ssc) (h5 : ssc ≤ min 5 stateLen)
    (hins : natLen + min 5 stateLen < 12) :
    ∃ s, adjustForSupply natLen stateLen ssc snc =
      Except.error (insufficientTotalMsg natLen s) := by
  unfold adjustForSupply
  simp only [DEFAULT_CONSTRAINTS]
  split_ifs with h1 h2 h3
  · exact ⟨_, rfl⟩
  · omega
  · omega
  · omega

lemma adjustForSupply_error_shape (natLen stateLen ssc snc : Int) (e : String)
    (h : adjustForSupply natLen stateLen ssc snc = Except.error e) :
    ∃ s, e = insufficientTotalMsg natLen s := by
  unfold adjustForSupply at h
  simp only [DEFAULT_CONSTRAINTS] at h
  split at h
  · split at h
    · split at h
      · exact ⟨_, (Except.error.inj h).symm⟩
      · exact absurd h (by simp)
    · exact absurd h (by simp)
  · exact absurd h (by simp)

lemma stateDraw_bounds (ch : Choices) (hv : ChoicesValid ch) (st : List Charity) :
    0 ≤ ((ch.stateDraw (min DEFAULT_CONSTRAINTS.maxStateCharities
        (st.length : Int)).toNat : Nat) : Int) ∧
    ((ch.stateDraw (min DEFAULT_CONSTRAINTS.maxStateCharities
        (st.length : Int)).toNat : Nat) : Int) ≤ min 5 (st.length : Int) := by
  have hd := hv.1 (min DEFAULT_CONSTRAINTS.maxStateCharities (st.length : Int)).toNat
  have hd' : ((ch.stateDraw (min DEFAULT_CONSTRAINTS.maxStateCharities
      (st.length : Int)).toNat : Nat) : Int) ≤
      ((min DEFAULT_CONSTRAINTS.maxStateCharities (st.length : Int)).toNat : Int) := by
    exact_mod_cast hd
  simp only [DEFAULT_CONSTRAINTS] at hd' ⊢
  constructor
  · exact Int.ofNat_nonneg _
  · omega

lemma planCounts_ok_spec (ch : Choices) (nat st : List Charity) (p : UserProfile)
    (hv : ChoicesValid ch) (ssc snc : Int)
    (h : planCounts ch nat st p = Except.ok (ssc, snc)) :
    ssc + snc = 12 ∧ 0 ≤ ssc ∧ ssc ≤ min 5 (st.length : Int) ∧ 0 ≤ snc ∧
      snc ≤ (nat.length : Int) ∧
      (p.hasPets = true →
        4 ≤ ((animalCharities nat).length : Int) + ((animalCharities st).length : Int) →
        4 ≤ min ((animalCharities st).length : Int) ssc +
            min ((animalCharities nat).length : Int) snc) := by
  obtain ⟨hd0, hd5⟩ := stateDraw_bounds ch hv st
  unfold planCounts at h
  simp only [DEFAULT_CONSTRAINTS] at h hd0 hd5
  set s0 : Int := ((ch.stateDraw ((min (5 : Int) (st.length : Int)).toNat) : Nat) : Int)
    with hs0
  obtain ⟨hpsum, hp0, hp5⟩ :=
    adjustForPets_bounds p.hasPets nat st s0 (12 - s0) (by omega) hd0 hd5
  obtain ⟨hq1, hq2, hq3, hq4, hq5, hq6⟩ :=
    adjustForSupply_ok_bounds (nat.length : Int) (st.length : Int)
      (adjustForPets p.hasPets nat st s0 (12 - s0)).1
      (adjustForPets p.hasPets nat st s0 (12 - s0)).2
      ssc snc hpsum hp0 hp5 h
  refine ⟨hq1, hq2, hq3, hq4, hq5, ?_⟩
  intro hpets hAB
  have hBlen : ((animalCharities st).length : Int) ≤ (st.length : Int) := by
    simpa [animalCharities] using
      (Int.ofNat_le.mpr (List.length_filter_le _ st))
  have hG := adjustForPets_G nat st s0 (12 - s0) (by omega) hd0 hd5 hBlen hAB
  rw [hpets] at hq6 hpsum hp5
  omega

lemma planCounts_ok_exists (ch : Choices) (nat st : List Charity) (p : UserProfile)
    (hv : ChoicesValid ch)
    (hsuff : 12 ≤ (nat.length : Int) + min 5 (st.length : Int)) :
    ∃ ssc snc, planCounts ch nat st p = Except.ok (ssc, snc) := by
  obtain ⟨hd0, hd5⟩ := stateDraw_bounds ch hv st
  unfold planCounts
  simp only [DEFAULT_CONSTRAINTS] at hd0 hd5 ⊢
  set s0 : Int := ((ch.stateDraw ((min (5 : Int) (st.length : Int)).toNat) : Nat) : Int)
    with hs0
  obtain ⟨hpsum, hp0, hp5⟩ :=
    adjustForPets_bounds p.hasPets nat st s0 (12 - s0) (by omega) hd0 hd5
  obtain ⟨⟨a, b⟩, hq⟩ :=
    adjustForSupply_ok_exists (nat.length : Int) (st.length : Int)
      (adjustForPets p.hasPets nat st s0 (12 - s0)).1
      (adjustForPets p.hasPets nat st s0 (12 - s0)).2 hpsum hp0 hp5 hsuff
  exact ⟨a, b, hq⟩

lemma planCounts_error_exists (ch : Choices) (nat st : List Charity) (p : UserProfile)
    (hv : ChoicesValid ch)
    (hins : (nat.length : Int) + min 5 (st.length : Int) < 12) :
    ∃ s, planCounts ch nat st p =
      Except.error (insufficientTotalMsg (nat.length : Int) s) := by
  obtain ⟨hd0, hd5⟩ := stateDraw_bounds ch hv st
  unfold planCounts
  simp only [DEFAULT_CONSTRAINTS] at hd0 hd5 ⊢
  set s0 : Int := ((ch.stateDraw ((min (5 : Int) (st.length : Int)).toNat) : Nat) : Int)
    with hs0
  obtain ⟨hpsum, hp0, hp5⟩ :=
    adjustForPets_bounds p.hasPets nat st s0 (12 - s0) (by omega) hd0 hd5
  exact adjustForSupply_error_exists (nat.length : Int) (st.length : Int)
    (adjustForPets p.hasPets nat st s0 (12 - s0)).1
    (adjustForPets p.hasPets nat st s0 (12 - s0)).2 hpsum hp0 hp5 hins

lemma planCounts_error_shape (ch : Choices) (nat st : List Charity) (p : UserProfile)
    (e : String) (h : planCounts ch nat st p = Except.error e) :
    ∃ s, e = insufficientTotalMsg (nat.length : Int) s := by
  unfold planCounts at h
  exact adjustForSupply_error_shape _ _ _ _ _ h

/-! ### Characterization of the assembly stage on the success path -/

lemma assemble_ok_spec (ch : Choices) (p : UserProfile) (nat st : List Charity)
    (snc ssc : Int) (hv : ChoicesValid ch)
    (hns : 0 ≤ snc) (hss : 0 ≤ ssc)
    (hsn : snc ≤ (nat.length : Int)) (hsl : ssc ≤ (st.length : Int))
    (hsum : snc + ssc = 12)
    (hnodN : (nat.map Charity.id).Nodup) (hnodS : (st.map Charity.id).Nodup) :
    ∃ addN addS evs,
      assemble ch p nat st snc ssc =
        (Except.ok (ch.finalSh ((applyTailoringRules ch p nat st snc ssc).national ++
          (applyTailoringRules ch p nat st snc ssc).state ++ addN ++ addS)), evs) ∧
      (∀ c ∈ addN, c ∈ nat) ∧ (∀ c ∈ addS, c ∈ st) ∧
      (((applyTailoringRules ch p nat st snc ssc).national.length : Int) +
        (addN.length : Int) = snc) ∧
      (((applyTailoringRules ch p nat st snc ssc).state.length : Int) +
        (addS.length : Int) = ssc) ∧
      ((((applyTailoringRules ch p nat st snc ssc).national ++ addN).map Charity.id).Nodup) ∧
      ((((applyTailoringRules ch p nat st snc ssc).state ++ addS).map Charity.id).Nodup) ∧
      (snc = (nat.length : Int) → ∀ c ∈ nat,
        c ∈ (applyTailoringRules ch p nat st snc ssc).national ++ addN) ∧
      (ssc = (st.length : Int) → ∀ c ∈ st,
        c ∈ (applyTailoringRules ch p nat st snc ssc).state ++ addS) := by
  have hts := tailoring_spec ch p nat st snc ssc hv hns hss _ rfl
  obtain ⟨fS, fN, e1, e2, e3, e4, e5, e6, e7, e8, e9, e10, e11, e12, _⟩ := hts
  obtain ⟨hdrw, htsh, htnh, hfnh, hfsh, hfih⟩ := hv
  generalize hTR : applyTailoringRules ch p nat st snc ssc = tr at e1 e2 e7 e8 e9 e10 e11 e12 ⊢
  have hnodTN : (tr.national.map Charity.id).Nodup := e11 hnodN
  have hnodTS : (tr.state.map Charity.id).Nodup := e12 hnodS
  have hsubTN : ∀ c ∈ tr.national, c ∈ nat := fun c hc => (e9 c hc).1
  have hsubTS : ∀ c ∈ tr.state, c ∈ st := fun c hc => (e10 c hc).1
  set remN := nat.filter (fun c => !(tr.national.any fun s => s.id == c.id)) with hremN
  set remS := st.filter (fun c => !(tr.state.any fun s => s.id == c.id)) with hremS
  have hremNlen : (nat.length : Int) - fN ≤ (remN.length : Int) := by
    have h := remaining_length_ge nat tr.national hnodN
    rw [← hremN] at h
    omega
  have hremSlen : (st.length : Int) - fS ≤ (remS.length : Int) := by
    have h := remaining_length_ge st tr.state hnodS
    rw [← hremS] at h
    omega
  have hremNnodup : (remN.map Charity.id).Nodup :=
    ((List.filter_sublist nat).map Charity.id).nodup hnodN
  have hremSnodup : (remS.map Charity.id).Nodup :=
    ((List.filter_sublist st).map Charity.id).nodup hnodS
  set addN := (selectRandomItems ch.fillNatSh remN tr.remainingNational).1 with haddN
  set addS := (selectRandomItems ch.fillStateSh remS tr.remainingState).1 with haddS
  have haddNlen : (addN.length : Int) = snc - fN := by
    rw [haddN, e1, selectRandomItems_length hfnh _ _ (by omega)]
    omega
  have haddSlen : (addS.length : Int) = ssc - fS := by
    rw [haddS, e2, selectRandomItems_length hfsh _ _ (by omega)]
    omega
  have haddNsub : ∀ c ∈ addN, c ∈ nat := by
    intro c hc
    exact (List.mem_filter.mp (selectRandomItems_subset hfnh _ _ c hc)).1
  have haddSsub : ∀ c ∈ addS, c ∈ st := by
    intro c hc
    exact (List.mem_filter.mp (selectRandomItems_subset hfsh _ _ c hc)).1
  have haddNnodup : (addN.map Charity.id).Nodup :=
    selectRandomItems_nodup hfnh _ _ Charity.id hremNnodup
  have haddSnodup : (addS.map Charity.id).Nodup :=
    selectRandomItems_nodup hfsh _ _ Charity.id hremSnodup
  have hdisjN : (tr.national.map Charity.id).Disjoint (addN.map Charity.id) := by
    intro x hx1 hx2
    rcases List.mem_map.mp hx1 with ⟨s, hs, rfl⟩
    rcases List.mem_map.mp hx2 with ⟨c, hc, hcid⟩
    have hcrem : c ∈ remN := selectRandomItems_subset hfnh _ _ c hc
    exact mem_remaining_not_sel hcrem s hs hcid.symm
  have hdisjS : (tr.state.map Charity.id).Disjoint (addS.map Charity.id) := by
    intro x hx1 hx2
    rcases List.mem_map.mp hx1 with ⟨s, hs, rfl⟩
    rcases List.mem_map.mp hx2 with ⟨c, hc, hcid⟩
    have hcrem : c ∈ remS := selectRandomItems_subset hfsh _ _ c hc
    exact mem_remaining_not_sel hcrem s hs hcid.symm
  have hfinlen : (((tr.national ++ tr.state ++ addN ++ addS).length : Int)) = 12 := by
    simp only [List.length_append]
    push_cast
    omega
  have hcond : ¬(((tr.national ++ tr.state ++ addN ++ addS).length : Int) ≠
      min DEFAULT_CONSTRAINTS.totalCharities ((nat.length : Int) + (st.length : Int))) := by
    simp only [DEFAULT_CONSTRAINTS, ne_eq, not_not, hfinlen]
    omega
  refine ⟨addN, addS,
    tr.events ++ (selectRandomItems ch.fillNatSh remN tr.remainingNational).2 ++
      (selectRandomItems ch.fillStateSh remS tr.remainingState).2 ++ [RngEvent.shuffleEv],
    ?_, haddNsub, haddSsub, by omega, by omega, ?_, ?_, ?_, ?_⟩
  · simp only [assemble]
    rw [hTR, ← hremN, ← hremS, ← haddN, ← haddS, if_neg hcond]
  · rw [List.map_append]
    exact hnodTN.append haddNnodup hdisjN
  · rw [List.map_append]
    exact hnodTS.append haddSnodup hdisjS
  · intro hEq c hc
    have hlenEq : (remN.length : Int) = (nat.length : Int) - fN := by
      have h := remaining_length_eq nat tr.national hnodN hnodTN hsubTN
      rw [← hremN] at h
      omega
    have hall : addN.Perm remN := by
      rw [haddN, e1]
      exact selectRandomItems_all hfnh _ _ (by omega)
    rcases mem_sel_or_remaining hnodN hsubTN hc with h | h
    · exact List.mem_append.mpr (Or.inl h)
    · exact List.mem_append.mpr (Or.inr (hall.mem_iff.mpr h))
  · intro hEq c hc
    have hlenEq : (remS.length : Int) = (st.length : Int) - fS := by
      have h := remaining_length_eq st tr.state hnodS hnodTS hsubTS
      rw [← hremS] at h
      omega
    have hall : addS.Perm remS := by
      rw [haddS, e2]
      exact selectRandomItems_all hfsh _ _ (by omega)
    rcases mem_sel_or_remaining hnodS hsubTS hc with h | h
    · exact List.mem_append.mpr (Or.inl h)
    · exact List.mem_append.mpr (Or.inr (hall.mem_iff.mpr h))

/-! ### Pool facts -/

lemma filter_two_disjoint_le {α : Type} (l : List α) (pf qf : α → Bool)
    (hdisj : ∀ a, pf a = true → qf a = false) :
    (l.filter pf).length + (l.filter qf).length ≤ l.length := by
  induction l with
  | nil => simp
  | cons a t ih =>
    rw [List.filter_cons, List.filter_cons]
    by_cases h : pf a
    · rw [if_pos h, if_neg (by simp [hdisj a h])]
      simp only [List.length_cons]
      omega
    · rw [if_neg h]
      by_cases h2 : qf a
      · rw [if_pos h2]
        simp only [List.length_cons]
        omega
      · rw [if_neg h2]
        simp only [List.length_cons]
        omega

lemma pools_length_le (raw : List Charity) (p : UserProfile) :
    (nationalPool raw).length + (statePool raw p).length ≤
      (validCharitiesOf raw).length := by
  unfold nationalPool statePool
  refine filter_two_disjoint_le _ _ _ ?_
  intro a ha
  have : a.featured = "NATIONAL" := by simpa using ha
  simp [this]

lemma mem_nationalPool {raw : List Charity} {c : Charity} :
    c ∈ nationalPool raw ↔ c ∈ validCharitiesOf raw ∧ c.featured = "NATIONAL" := by
  simp [nationalPool, List.mem_filter]

lemma mem_statePool {raw : List Charity} {p : UserProfile} {c : Charity} :
    c ∈ statePool raw p ↔
      c ∈ validCharitiesOf raw ∧ c.featured = "STATE" ∧ c.state = p.state := by
  simp [statePool, List.mem_filter, and_assoc]

lemma valid_nodup {raw : List Charity} (h : (raw.map Charity.id).Nodup) :
    ((validCharitiesOf raw).map Charity.id).Nodup :=
  ((List.filter_sublist raw).map Charity.id).nodup h

lemma nationalPool_nodup {raw : List Charity} (h : (raw.map Charity.id).Nodup) :
    ((nationalPool raw).map Charity.id).Nodup :=
  ((List.filter_sublist _).map Charity.id).nodup (valid_nodup h)

lemma statePool_nodup {raw : List Charity} {p : UserProfile}
    (h : (raw.map Charity.id).Nodup) :
    ((statePool raw p).map Charity.id).Nodup :=
  ((List.filter_sublist _).map Charity.id).nodup (valid_nodup h)

lemma pools_id_disjoint {raw : List Charity} {p : UserProfile}
    (h : (raw.map Charity.id).Nodup) :
    ((nationalPool raw).map Charity.id).Disjoint ((statePool raw p).map Charity.id) := by
  intro x hx1 hx2
  rcases List.mem_map.mp hx1 with ⟨c, hc, rfl⟩
  rcases List.mem_map.mp hx2 with ⟨d, hd, hdid⟩
  have hc' := mem_nationalPool.mp hc
  have hd' := mem_statePool.mp hd
  have hcd : c = d := nodup_id_inj (valid_nodup h) hc'.1 hd'.1 hdid.symm
  rw [hcd, hd'.2.1] at hc'
  exact absurd hc'.2 (by decide)

/-! ### Path lemmas for `selectCore` -/

lemma selectCore_eq_error_valid (ch : Choices) (raw : List Charity) (p : UserProfile)
    (h : ((validCharitiesOf raw).length : Int) < DEFAULT_CONSTRAINTS.totalCharities) :
    selectCore ch raw p =
      (Except.error (insufficientCharitiesMsg (validCharitiesOf raw).length), []) := by
  unfold selectCore
  rw [if_pos h]

lemma selectCore_eq_error_plan (ch : Choices) (raw : List Charity) (p : UserProfile)
    (e : String)
    (hvalid : ¬((validCharitiesOf raw).length : Int) < DEFAULT_CONSTRAINTS.totalCharities)
    (hplan : planCounts ch (nationalPool raw) (statePool raw p) p = Except.error e) :
    selectCore ch raw p = (Except.error e, [RngEvent.randInt]) := by
  unfold selectCore
  rw [if_neg hvalid]
  simp only [hplan]

lemma selectCore_eq_assemble (ch : Choices) (raw : List Charity) (p : UserProfile)
    (ssc snc : Int)
    (hvalid : ¬((validCharitiesOf raw).length : Int) < DEFAULT_CONSTRAINTS.totalCharities)
    (hplan : planCounts ch (nationalPool raw) (statePool raw p) p = Except.ok (ssc, snc)) :
    selectCore ch raw p =
      ((assemble ch p (nationalPool raw) (statePool raw p) snc ssc).1,
        RngEvent.randInt ::
          (assemble ch p (nationalPool raw) (statePool raw p) snc ssc).2) := by
  unfold selectCore
  rw [if_neg hvalid]
  simp only [hplan]

lemma selectCore_ok_inv (ch : Choices) (raw : List Charity) (p : UserProfile)
    (res : List Charity) (h : (selectCore ch raw p).1 = Except.ok res) :
    ∃ ssc snc,
      planCounts ch (nationalPool raw) (statePool raw p) p = Except.ok (ssc, snc) ∧
      (assemble ch p (nationalPool raw) (statePool raw p) snc ssc).1 = Except.ok res ∧
      ¬((validCharitiesOf raw).length : Int) < DEFAULT_CONSTRAINTS.totalCharities := by
  by_cases hvalid : ((validCharitiesOf raw).length : Int) < DEFAULT_CONSTRAINTS.totalCharities
  · rw [selectCore_eq_error_valid ch raw p hvalid] at h
    exact absurd h (by simp)
  · cases hq : planCounts ch (nationalPool raw) (statePool raw p) p with
    | error e =>
      rw [selectCore_eq_error_plan ch raw p e hvalid hq] at h
      exact absurd h (by simp)
    | ok counts =>
      obtain ⟨s1, s2⟩ := counts
      rw [selectCore_eq_assemble ch raw p s1 s2 hvalid hq] at h
      exact ⟨s1, s2, rfl, h, hvalid⟩

lemma assemble_ok_pieces (ch : Choices) (p : UserProfile) (nat st : List Charity)
    (snc ssc : Int) (res : List Charity) (hv : ChoicesValid ch)
    (h : (assemble ch p nat st snc ssc).1 = Except.ok res) :
    ∃ addN addS,
      res = ch.finalSh ((applyTailoringRules ch p nat st snc ssc).national ++
        (applyTailoringRules ch p nat st snc ssc).state ++ addN ++ addS) ∧
      (∀ c ∈ addN, c ∈ nat) ∧ (∀ c ∈ addS, c ∈ st) ∧
      ((addN.length : Int) ≤
        max (applyTailoringRules ch p nat st snc ssc).remainingNational 0) ∧
      ((addS.length : Int) ≤
        max (applyTailoringRules ch p nat st snc ssc).remainingState 0) := by
  obtain ⟨hdrw, htsh, htnh, hfnh, hfsh, hfih⟩ := hv
  simp only [assemble] at h
  split at h
  · exact absurd h (by simp)
  · simp only [Except.ok.injEq] at h
    refine ⟨_, _, h.symm, ?_, ?_, ?_, ?_⟩
    · intro c hc
      exact (List.mem_filter.mp (selectRandomItems_subset hfnh _ _ c hc)).1
    · intro c hc
      exact (List.mem_filter.mp (selectRandomItems_subset hfsh _ _ c hc)).1
    · exact selectRandomItems_length_le hfnh _ _
    · exact selectRandomItems_length_le hfsh _ _

lemma nodup_map_four {α β : Type} (f : α → β) (a b c d : List α)
    (ha : (a.map f).Nodup) (hb : (b.map f).Nodup) (hc : (c.map f).Nodup)
    (hd : (d.map f).Nodup)
    (dab : (a.map f).Disjoint (b.map f)) (dac : (a.map f).Disjoint (c.map f))
    (dad : (a.map f).Disjoint (d.map f)) (dbc : (b.map f).Disjoint (c.map f))
    (dbd : (b.map f).Disjoint (d.map f)) (dcd : (c.map f).Disjoint (d.map f)) :
    ((a ++ b ++ c ++ d).map f).Nodup := by
  simp only [List.map_append]
  refine ((ha.append hb dab).append hc ?_).append hd ?_
  · exact List.disjoint_append_left.mpr ⟨dac, dbc⟩
  · refine List.disjoint_append_left.mpr ⟨List.disjoint_append_left.mpr ⟨dad, dbd⟩, dcd⟩

/-! ### Claim theorems -/

lemma chValid0 : ChoicesValid ch0 :=
  ⟨fun m => Nat.zero_le m, fun _ l => List.Perm.refl l, fun _ l => List.Perm.refl l,
    fun l => List.Perm.refl l, fun l => List.Perm.refl l, fun l => List.Perm.refl l⟩

/-- C1: for every valid input (pairwise-distinct candidate ids, any profile)
whose supply is sufficient (the achievable total, national pool plus at most
`maxStateCharities` from the matching state pool, reaches `totalCharities`),
`selectCharities` succeeds and returns exactly `totalCount = 12` items — it
neither returns fewer nor throws. -/
theorem selectCore_length_of_sufficient_supply (ch : Choices) (raw : List Charity)
    (p : UserProfile) (hv : ChoicesValid ch) (hnod : (raw.map Charity.id).Nodup)
    (hsuff : 12 ≤ ((nationalPool raw).length : Int) +
      min 5 ((statePool raw p).length : Int)) :
    ∃ res, (selectCore ch raw p).1 = Except.ok res ∧ res.length = 12 := by
  have hle := pools_length_le raw p
  have hvalid : ¬((validCharitiesOf raw).length : Int) <
      DEFAULT_CONSTRAINTS.totalCharities := by
    simp only [DEFAULT_CONSTRAINTS]
    omega
  obtain ⟨ssc, snc, hplan⟩ := planCounts_ok_exists ch _ _ p hv hsuff
  obtain ⟨hq1, hq2, hq3, hq4, hq5, _⟩ := planCounts_ok_spec ch _ _ p hv ssc snc hplan
  obtain ⟨addN, addS, evs, heq, _, _, hlenN, hlenS, _, _, _, _⟩ :=
    assemble_ok_spec ch p (nationalPool raw) (statePool raw p) snc ssc hv hq4 hq2
      hq5 (le_trans hq3 (min_le_right _ _)) (by omega)
      (nationalPool_nodup hnod) (statePool_nodup hnod)
  refine ⟨ch.finalSh ((applyTailoringRules ch p (nationalPool raw)
      (statePool raw p) snc ssc).national ++ (applyTailoringRules ch p
      (nationalPool raw) (statePool raw p) snc ssc).state ++ addN ++ addS), ?_, ?_⟩
  · rw [selectCore_eq_assemble ch raw p ssc snc hvalid hplan, heq]
  · have hperm := hv.2.2.2.2.2 ((applyTailoringRules ch p (nationalPool raw)
      (statePool raw p) snc ssc).national ++ (applyTailoringRules ch p
      (nationalPool raw) (statePool raw p) snc ssc).state ++ addN ++ addS)
    rw [hperm.length_eq]
    simp only [List.length_append]
    omega

/-- Witness for C1 at a concrete input: twelve national charities. -/
theorem selectCore_length_of_sufficient_supply_witness :
    (raw1.map Charity.id).Nodup ∧
    12 ≤ ((nationalPool raw1).length : Int) + min 5 ((statePool raw1 p1).length : Int) ∧
    ∃ res, (selectCore ch0 raw1 p1).1 = Except.ok res ∧ res.length = 12 :=
  ⟨by decide, by decide,
    selectCore_length_of_sufficient_supply ch0 raw1 p1 chValid0 (by decide) (by decide)⟩

/-- C2: whenever the profile has pets and at least four `ANIMAL_RELATED`
charities exist across the national pool and the matching state pool, every
successful result contains at least four `ANIMAL_RELATED` items. -/
theorem selectCore_min_animal_if_pets (ch : Choices) (raw : List Charity)
    (p : UserProfile) (res : List Charity) (hv : ChoicesValid ch)
    (hp : p.hasPets = true)
    (hanimals : 4 ≤ ((animalCharities (nationalPool raw)).length : Int) +
      ((animalCharities (statePool raw p)).length : Int))
    (h : (selectCore ch raw p).1 = Except.ok res) :
    4 ≤ res.countP fun c => c.category == "ANIMAL_RELATED" := by
  obtain ⟨ssc, snc, hplan, hasm, hvalid⟩ := selectCore_ok_inv ch raw p res h
  obtain ⟨hq1, hq2, hq3, hq4, hq5, hG⟩ := planCounts_ok_spec ch _ _ p hv ssc snc hplan
  obtain ⟨fS, fN, e1, e2, e3, e4, e5, e6, e7, e8, e9, e10, e11, e12, e13⟩ :=
    tailoring_spec ch p (nationalPool raw) (statePool raw p) snc ssc hv hq4 hq2 _ rfl
  have hfsfn : fS + fN = 4 := e13 hp hanimals (hG hp hanimals)
  obtain ⟨addN, addS, hres, _, _, _, _⟩ :=
    assemble_ok_pieces ch p (nationalPool raw) (statePool raw p) snc ssc res hv hasm
  have hperm := hv.2.2.2.2.2 ((applyTailoringRules ch p (nationalPool raw)
    (statePool raw p) snc ssc).national ++ (applyTailoringRules ch p
    (nationalPool raw) (statePool raw p) snc ssc).state ++ addN ++ addS)
  rw [hres, hperm.countP_eq]
  simp only [List.countP_append]
  have hcn : (applyTailoringRules ch p (nationalPool raw) (statePool raw p) snc
      ssc).national.countP (fun c => c.category == "ANIMAL_RELATED") =
      (applyTailoringRules ch p (nationalPool raw) (statePool raw p) snc
      ssc).national.length := by
    rw [List.countP_eq_length]
    intro c hc
    simp [(e9 c hc).2]
  have hcs : (applyTailoringRules ch p (nationalPool raw) (statePool raw p) snc
      ssc).state.countP (fun c => c.category == "ANIMAL_RELATED") =
      (applyTailoringRules ch p (nationalPool raw) (statePool raw p) snc
      ssc).state.length := by
    rw [List.countP_eq_length]
    intro c hc
    simp [(e10 c hc).2]
  rw [hcn, hcs]
  omega

/-- Witness for C2: twelve national charities, four of them animal-related,
for a profile with pets. -/
theorem selectCore_min_animal_if_pets_witness :
    p2.hasPets = true ∧
    4 ≤ ((animalCharities (nationalPool raw2)).length : Int) +
      ((animalCharities (statePool raw2 p2)).length : Int) ∧
    (selectCore ch0 raw2 p2).1 = Except.ok res2 ∧
    4 ≤ res2.countP fun c => c.category == "ANIMAL_RELATED" :=
  ⟨rfl, by decide, rfl,
    selectCore_min_animal_if_pets ch0 raw2 p2 res2 chValid0 rfl (by decide) rfl⟩

/-- C3: whenever the eligible supply (national pool plus matching state pool)
is below `totalCount`, the call rejects with a supply error whose message names
the shortfall counts, and the rejection happens before any tailoring-rule
selection or item sampling: the RNG trace contains no coin flip and no shuffle,
at most the state-count integer draw. -/
theorem selectCore_supply_error_before_sampling (ch : Choices) (raw : List Charity)
    (p : UserProfile) (hv : ChoicesValid ch)
    (hins : eligibleCount raw p < 12) :
    (∃ e, (selectCore ch raw p).1 = Except.error e ∧
      (e = insufficientCharitiesMsg (validCharitiesOf raw).length ∨
        ∃ s, e = insufficientTotalMsg ((nationalPool raw).length : Int) s)) ∧
    ∀ ev ∈ (selectCore ch raw p).2, ev = RngEvent.randInt := by
  by_cases hvalid : ((validCharitiesOf raw).length : Int) <
      DEFAULT_CONSTRAINTS.totalCharities
  · rw [selectCore_eq_error_valid ch raw p hvalid]
    exact ⟨⟨_, rfl, Or.inl rfl⟩, by simp⟩
  · have hins' : ((nationalPool raw).length : Int) +
        min 5 ((statePool raw p).length : Int) < 12 := by
      unfold eligibleCount at hins
      omega
    obtain ⟨s, hplan⟩ := planCounts_error_exists ch _ _ p hv hins'
    rw [selectCore_eq_error_plan ch raw p _ hvalid hplan]
    exact ⟨⟨_, rfl, Or.inr ⟨s, rfl⟩⟩, by simp⟩

/-- Witness for C3: no charities at all. -/
theorem selectCore_supply_error_before_sampling_witness :
    eligibleCount ([] : List Charity) p1 < 12 ∧
    ((∃ e, (selectCore ch0 [] p1).1 = Except.error e ∧
      (e = insufficientCharitiesMsg (validCharitiesOf []).length ∨
        ∃ s, e = insufficientTotalMsg ((nationalPool []).length : Int) s)) ∧
      ∀ ev ∈ (selectCore ch0 [] p1).2, ev = RngEvent.randInt) :=
  ⟨by decide, selectCore_supply_error_before_sampling ch0 [] p1 chValid0 (by decide)⟩

/-- C4: every successful result contains at most `maxStateCharities = 5` items
with `featured = "STATE"`, and each such item's state equals the profile's
state. -/
theorem selectCore_state_bound_and_matching (ch : Choices) (raw : List Charity)
    (p : UserProfile) (res : List Charity) (hv : ChoicesValid ch)
    (h : (selectCore ch raw p).1 = Except.ok res) :
    (res.countP fun c => c.featured == "STATE") ≤ 5 ∧
      ∀ c ∈ res, c.featured = "STATE" → c.state = p.state := by
  obtain ⟨ssc, snc, hplan, hasm, hvalid⟩ := selectCore_ok_inv ch raw p res h
  obtain ⟨hq1, hq2, hq3, hq4, hq5, _⟩ := planCounts_ok_spec ch _ _ p hv ssc snc hplan
  obtain ⟨fS, fN, e1, e2, e3, e4, e5, e6, e7, e8, e9, e10, e11, e12, _⟩ :=
    tailoring_spec ch p (nationalPool raw) (statePool raw p) snc ssc hv hq4 hq2 _ rfl
  obtain ⟨addN, addS, hres, hmN, hmS, hlN, hlS⟩ :=
    assemble_ok_pieces ch p (nationalPool raw) (statePool raw p) snc ssc res hv hasm
  have hperm := hv.2.2.2.2.2 ((applyTailoringRules ch p (nationalPool raw)
    (statePool raw p) snc ssc).national ++ (applyTailoringRules ch p
    (nationalPool raw) (statePool raw p) snc ssc).state ++ addN ++ addS)
  constructor
  · rw [hres, hperm.countP_eq]
    simp only [List.countP_append]
    have hzn : (applyTailoringRules ch p (nationalPool raw) (statePool raw p) snc
        ssc).national.countP (fun c => c.featured == "STATE") = 0 := by
      rw [List.countP_eq_zero]
      intro c hc
      have := (mem_nationalPool.mp (e9 c hc).1).2
      simp [this]
    have hza : addN.countP (fun c => c.featured == "STATE") = 0 := by
      rw [List.countP_eq_zero]
      intro c hc
      have := (mem_nationalPool.mp (hmN c hc)).2
      simp [this]
    have hbs := List.countP_le_length
      (l := (applyTailoringRules ch p (nationalPool raw) (statePool raw p) snc
        ssc).state) (p := fun c => c.featured == "STATE")
    have hba := List.countP_le_length (l := addS) (p := fun c => c.featured == "STATE")
    rw [e1] at hlN
    rw [e2] at hlS
    omega
  · intro c hc hcf
    rw [hres, hperm.mem_iff] at hc
    simp only [List.mem_append] at hc
    rcases hc with ((hc | hc) | hc) | hc
    · exact absurd ((mem_nationalPool.mp (e9 c hc).1).2.symm.trans hcf) (by decide)
    · exact (mem_statePool.mp (e10 c hc).1).2.2
    · exact absurd ((mem_nationalPool.mp (hmN c hc)).2.symm.trans hcf) (by decide)
    · exact (mem_statePool.mp (hmS c hc)).2.2

/-- Witness for C4 at a concrete successful run. -/
theorem selectCore_state_bound_and_matching_witness :
    (selectCore ch0 raw1 p1).1 = Except.ok res1 ∧
    (res1.countP fun c => c.featured == "STATE") ≤ 5 ∧
    ∀ c ∈ res1, c.featured = "STATE" → c.state = p1.state :=
  ⟨rfl,
    (selectCore_state_bound_and_matching ch0 raw1 p1 res1 chValid0 rfl).1,
    (selectCore_state_bound_and_matching ch0 raw1 p1 res1 chValid0 rfl).2⟩

/-- C5: with pairwise-distinct candidate ids, every successful result has
pairwise-distinct ids and every returned item belongs to the eligible set:
the national pool or the matching state pool. -/
theorem selectCore_distinct_ids_and_membership (ch : Choices) (raw : List Charity)
    (p : UserProfile) (res : List Charity) (hv : ChoicesValid ch)
    (hnod : (raw.map Charity.id).Nodup)
    (h : (selectCore ch raw p).1 = Except.ok res) :
    (res.map Charity.id).Nodup ∧
      ∀ c ∈ res, c ∈ nationalPool raw ∨ c ∈ statePool raw p := by
  obtain ⟨ssc, snc, hplan, hasm, hvalid⟩ := selectCore_ok_inv ch raw p res h
  obtain ⟨hq1, hq2, hq3, hq4, hq5, _⟩ := planCounts_ok_spec ch _ _ p hv ssc snc hplan
  obtain ⟨fS, fN, e1, e2, e3, e4, e5, e6, e7, e8, e9, e10, e11, e12, _⟩ :=
    tailoring_spec ch p (nationalPool raw) (statePool raw p) snc ssc hv hq4 hq2 _ rfl
  obtain ⟨addN, addS, evs, heq, haN, haS, hlN, hlS, hndN, hndS, _, _⟩ :=
    assemble_ok_spec ch p (nationalPool raw) (statePool raw p) snc ssc hv hq4 hq2
      hq5 (le_trans hq3 (min_le_right _ _)) (by omega)
      (nationalPool_nodup hnod) (statePool_nodup hnod)
  rw [heq] at hasm
  have hres : res = ch.finalSh ((applyTailoringRules ch p (nationalPool raw)
      (statePool raw p) snc ssc).national ++ (applyTailoringRules ch p
      (nationalPool raw) (statePool raw p) snc ssc).state ++ addN ++ addS) :=
    (Except.ok.inj hasm).symm
  have hperm := hv.2.2.2.2.2 ((applyTailoringRules ch p (nationalPool raw)
    (statePool raw p) snc ssc).national ++ (applyTailoringRules ch p
    (nationalPool raw) (statePool raw p) snc ssc).state ++ addN ++ addS)
  have hsubTN : ∀ c ∈ (applyTailoringRules ch p (nationalPool raw)
      (statePool raw p) snc ssc).national, c ∈ nationalPool raw :=
    fun c hc => (e9 c hc).1
  have hsubTS : ∀ c ∈ (applyTailoringRules ch p (nationalPool raw)
      (statePool raw p) snc ssc).state, c ∈ statePool raw p :=
    fun c hc => (e10 c hc).1
  have idmap : ∀ (l pool : List Charity), (∀ c ∈ l, c ∈ pool) →
      (l.map Charity.id) ⊆ (pool.map Charity.id) := by
    intro l pool hsub x hx
    rcases List.mem_map.mp hx with ⟨c, hc, rfl⟩
    exact List.mem_map_of_mem Charity.id (hsub c hc)
  have hpdisj := pools_id_disjoint (p := p) hnod
  have crossDisj : ∀ (a b : List Charity), (∀ c ∈ a, c ∈ nationalPool raw) →
      (∀ c ∈ b, c ∈ statePool raw p) →
      (a.map Charity.id).Disjoint (b.map Charity.id) :=
    fun a b hai hbi x hx1 hx2 => hpdisj (idmap a _ hai hx1) (idmap b _ hbi hx2)
  rw [List.map_append, List.nodup_append] at hndN hndS
  constructor
  · rw [hres]
    have := (hperm.map Charity.id).nodup_iff
    rw [this]
    exact nodup_map_four Charity.id _ _ addN addS hndN.1 hndS.1 hndN.2.1 hndS.2.1
      (crossDisj _ _ hsubTN hsubTS)
      hndN.2.2
      (crossDisj _ addS hsubTN haS)
      (List.Disjoint.symm (crossDisj addN _ haN hsubTS))
      hndS.2.2
      (crossDisj addN addS haN haS)
  · intro c hc
    rw [hres, hperm.mem_iff] at hc
    simp only [List.mem_append] at hc
    rcases hc with ((hc | hc) | hc) | hc
    · exact Or.inl (hsubTN c hc)
    · exact Or.inr (hsubTS c hc)
    · exact Or.inl (haN c hc)
    · exact Or.inr (haS c hc)

/-- Witness for C5 at a concrete successful run. -/
theorem selectCore_distinct_ids_and_membership_witness :
    (raw1.map Charity.id).Nodup ∧
    (selectCore ch0 raw1 p1).1 = Except.ok res1 ∧
    (res1.map Charity.id).Nodup ∧
    ∀ c ∈ res1, c ∈ nationalPool raw1 ∨ c ∈ statePool raw1 p1 :=
  ⟨by decide, rfl,
    (selectCore_distinct_ids_and_membership ch0 raw1 p1 res1 chValid0 (by decide) rfl).1,
    (selectCore_distinct_ids_and_membership ch0 raw1 p1 res1 chValid0 (by decide) rfl).2⟩

/-- C6: with pairwise-distinct candidate ids, the final-count invariant check
is unreachable: every run either succeeds or rejects with one of the two
supply errors, so the `Selection count mismatch` branch is never taken. -/
theorem selectCore_no_count_mismatch (ch : Choices) (raw : List Charity)
    (p : UserProfile) (hv : ChoicesValid ch) (hnod : (raw.map Charity.id).Nodup) :
    (∃ res, (selectCore ch raw p).1 = Except.ok res) ∨
    (∃ e, (selectCore ch raw p).1 = Except.error e ∧
      (e = insufficientCharitiesMsg (validCharitiesOf raw).length ∨
        ∃ s, e = insufficientTotalMsg ((nationalPool raw).length : Int) s)) := by
  by_cases hvalid : ((validCharitiesOf raw).length : Int) <
      DEFAULT_CONSTRAINTS.totalCharities
  · rw [selectCore_eq_error_valid ch raw p hvalid]
    exact Or.inr ⟨_, rfl, Or.inl rfl⟩
  · cases hq : planCounts ch (nationalPool raw) (statePool raw p) p with
    | error e =>
      obtain ⟨s, hs⟩ := planCounts_error_shape ch _ _ p e hq
      rw [selectCore_eq_error_plan ch raw p e hvalid hq]
      exact Or.inr ⟨e, rfl, Or.inr ⟨s, hs⟩⟩
    | ok counts =>
      obtain ⟨s1, s2⟩ := counts
      obtain ⟨hq1, hq2, hq3, hq4, hq5, _⟩ := planCounts_ok_spec ch _ _ p hv s1 s2 hq
      obtain ⟨addN, addS, evs, heq, _, _, _, _, _, _, _, _⟩ :=
        assemble_ok_spec ch p (nationalPool raw) (statePool raw p) s2 s1 hv hq4 hq2
          hq5 (le_trans hq3 (min_le_right _ _)) (by omega)
          (nationalPool_nodup hnod) (statePool_nodup hnod)
      rw [selectCore_eq_assemble ch raw p s1 s2 hvalid hq, heq]
      exact Or.inl ⟨_, rfl⟩

/-- Witness for C6 at a concrete input. -/
theorem selectCore_no_count_mismatch_witness :
    (raw1.map Charity.id).Nodup ∧
    ((∃ res, (selectCore ch0 raw1 p1).1 = Except.ok res) ∨
      (∃ e, (selectCore ch0 raw1 p1).1 = Except.error e ∧
        (e = insufficientCharitiesMsg (validCharitiesOf raw1).length ∨
          ∃ s, e = insufficientTotalMsg ((nationalPool raw1).length : Int) s))) :=
  ⟨by decide, selectCore_no_count_mismatch ch0 raw1 p1 chValid0 (by decide)⟩

/-- C9: with exactly 12 eligible candidates, 8 national and 4 state-featured
matching the profile's state, the run succeeds and every eligible candidate is
in the result. -/
theorem selectCore_exact_supply_uses_all (ch : Choices) (raw : List Charity)
    (p : UserProfile) (hv : ChoicesValid ch) (hnod : (raw.map Charity.id).Nodup)
    (hN : (nationalPool raw).length = 8) (hS : (statePool raw p).length = 4) :
    ∃ res, (selectCore ch raw p).1 = Except.ok res ∧ res.length = 12 ∧
      (∀ c ∈ nationalPool raw, c ∈ res) ∧ (∀ c ∈ statePool raw p, c ∈ res) := by
  have hle := pools_length_le raw p
  have hN' : ((nationalPool raw).length : Int) = 8 := by rw [hN]; rfl
  have hS' : ((statePool raw p).length : Int) = 4 := by rw [hS]; rfl
  have hsuff : 12 ≤ ((nationalPool raw).length : Int) +
      min 5 ((statePool raw p).length : Int) := by omega
  have hvalid : ¬((validCharitiesOf raw).length : Int) <
      DEFAULT_CONSTRAINTS.totalCharities := by
    simp only [DEFAULT_CONSTRAINTS]
    omega
  obtain ⟨ssc, snc, hplan⟩ := planCounts_ok_exists ch _ _ p hv hsuff
  obtain ⟨hq1, hq2, hq3, hq4, hq5, _⟩ := planCounts_ok_spec ch _ _ p hv ssc snc hplan
  have hssc : ssc = ((statePool raw p).length : Int) := by omega
  have hsnc : snc = ((nationalPool raw).length : Int) := by omega
  obtain ⟨addN, addS, evs, heq, _, _, hlenN, hlenS, _, _, hcontN, hcontS⟩ :=
    assemble_ok_spec ch p (nationalPool raw) (statePool raw p) snc ssc hv hq4 hq2
      hq5 (le_trans hq3 (min_le_right _ _)) (by omega)
      (nationalPool_nodup hnod) (statePool_nodup hnod)
  have hperm := hv.2.2.2.2.2 ((applyTailoringRules ch p (nationalPool raw)
    (statePool raw p) snc ssc).national ++ (applyTailoringRules ch p
    (nationalPool raw) (statePool raw p) snc ssc).state ++ addN ++ addS)
  refine ⟨ch.finalSh ((applyTailoringRules ch p (nationalPool raw)
      (statePool raw p) snc ssc).national ++ (applyTailoringRules ch p
      (nationalPool raw) (statePool raw p) snc ssc).state ++ addN ++ addS),
    ?_, ?_, ?_, ?_⟩
  · rw [selectCore_eq_assemble ch raw p ssc snc hvalid hplan, heq]
  · rw [hperm.length_eq]
    simp only [List.length_append]
    omega
  · intro c hc
    rw [hperm.mem_iff]
    simp only [List.mem_append]
    rcases List.mem_append.mp (hcontN hsnc c hc) with h1 | h1
    · exact Or.inl (Or.inl (Or.inl h1))
    · exact Or.inl (Or.inr h1)
  · intro c hc
    rw [hperm.mem_iff]
    simp only [List.mem_append]
    rcases List.mem_append.mp (hcontS hssc c hc) with h1 | h1
    · exact Or.inl (Or.inl (Or.inr h1))
    · exact Or.inr h1

/-- Witness for C9: 8 national and 4 matching state charities. -/
theorem selectCore_exact_supply_uses_all_witness :
    (raw9.map Charity.id).Nodup ∧ (nationalPool raw9).length = 8 ∧
    (statePool raw9 p1).length = 4 ∧
    ∃ res, (selectCore ch0 raw9 p1).1 = Except.ok res ∧ res.length = 12 ∧
      (∀ c ∈ nationalPool raw9, c ∈ res) ∧ (∀ c ∈ statePool raw9 p1, c ∈ res) :=
  ⟨by decide, by decide, by decide,
    selectCore_exact_supply_uses_all ch0 raw9 p1 chValid0 (by decide)
      (by decide) (by decide)⟩

/-- C7 counterexample: twelve valid but non-featured charities give an empty
eligible set, yet the single upfront check (which counts all valid charities,
line 140) passes, and the run instead fails later with the capacity-planning
error — so the upfront check is not over the eligible set and does not fire
before the pools are built. -/
theorem upfront_check_not_on_eligible_set :
    eligibleCount raw0 p1 < 12 ∧
    ¬(((validCharitiesOf raw0).length : Int) < DEFAULT_CONSTRAINTS.totalCharities) ∧
    (selectCore ch0 raw0 p1).1 = Except.error (insufficientTotalMsg 0 0) :=
  ⟨by decide, by decide, rfl⟩

/-- C7 amended: the upfront check of line 140 counts all valid charities,
non-featured ones included; an eligible-set shortfall that passes it is
rejected only during capacity planning — after the pools are built and the
state-count draw has been made — with the "Insufficient total charities"
error. -/
theorem eligible_shortfall_rejected_in_capacity_planning (ch : Choices)
    (raw : List Charity) (p : UserProfile) (hv : ChoicesValid ch)
    (hins : eligibleCount raw p < 12)
    (hvalid : 12 ≤ ((validCharitiesOf raw).length : Int)) :
    ∃ s, selectCore ch raw p =
      (Except.error (insufficientTotalMsg ((nationalPool raw).length : Int) s),
        [RngEvent.randInt]) := by
  have hvalid' : ¬((validCharitiesOf raw).length : Int) <
      DEFAULT_CONSTRAINTS.totalCharities := by
    simp only [DEFAULT_CONSTRAINTS]
    omega
  have hins' : ((nationalPool raw).length : Int) +
      min 5 ((statePool raw p).length : Int) < 12 := by
    unfold eligibleCount at hins
    omega
  obtain ⟨s, hplan⟩ := planCounts_error_exists ch _ _ p hv hins'
  exact ⟨s, selectCore_eq_error_plan ch raw p _ hvalid' hplan⟩

/-- Witness for the amended C7 at the concrete non-featured input. -/
theorem eligible_shortfall_rejected_in_capacity_planning_witness :
    eligibleCount raw0 p1 < 12 ∧ 12 ≤ ((validCharitiesOf raw0).length : Int) ∧
    ∃ s, selectCore ch0 raw0 p1 =
      (Except.error (insufficientTotalMsg ((nationalPool raw0).length : Int) s),
        [RngEvent.randInt]) :=
  ⟨by decide, by decide,
    eligible_shortfall_rejected_in_capacity_planning ch0 raw0 p1 chValid0
      (by decide) (by decide)⟩

/-- C8 counterexample: on twelve valid non-featured charities the run aborts
with the capacity-planning shortfall error, but its RNG trace is not empty:
the `getRandomInt` state-count draw (line 154) has already happened before the
abort at line 208, contradicting "no random draw has happened before the
abort". -/
theorem capacity_abort_after_rng_draw :
    (selectCore ch0 raw0 p1).1 = Except.error (insufficientTotalMsg 0 0) ∧
    (selectCore ch0 raw0 p1).2 = [RngEvent.randInt] ∧
    (selectCore ch0 raw0 p1).2 ≠ [] :=
  ⟨rfl, rfl, by decide⟩

/-- C8 amended: when capacity planning rejects, the rejection surfaces with
RNG trace exactly `[randInt]`: the one state-count integer draw precedes the
abort, and no item sampling (shuffle) and no distribution coin flip does. -/
theorem capacity_abort_trace_single_draw (ch : Choices) (raw : List Charity)
    (p : UserProfile) (e : String)
    (hvalid : ¬((validCharitiesOf raw).length : Int) <
      DEFAULT_CONSTRAINTS.totalCharities)
    (hplan : planCounts ch (nationalPool raw) (statePool raw p) p =
      Except.error e) :
    (selectCore ch raw p).1 = Except.error e ∧
    (selectCore ch raw p).2 = [RngEvent.randInt] ∧
    RngEvent.shuffleEv ∉ (selectCore ch raw p).2 ∧
    RngEvent.coin ∉ (selectCore ch raw p).2 := by
  rw [selectCore_eq_error_plan ch raw p e hvalid hplan]
  exact ⟨rfl, rfl, by simp, by simp⟩

/-- Witness for the amended C8 at the concrete non-featured input. -/
theorem capacity_abort_trace_single_draw_witness :
    ¬(((validCharitiesOf raw0).length : Int) < DEFAULT_CONSTRAINTS.totalCharities) ∧
    planCounts ch0 (nationalPool raw0) (statePool raw0 p1) p1 =
      Except.error (insufficientTotalMsg 0 0) ∧
    ((selectCore ch0 raw0 p1).1 = Except.error (insufficientTotalMsg 0 0) ∧
      (selectCore ch0 raw0 p1).2 = [RngEvent.randInt] ∧
      RngEvent.shuffleEv ∉ (selectCore ch0 raw0 p1).2 ∧
      RngEvent.coin ∉ (selectCore ch0 raw0 p1).2) :=
  ⟨by decide, rfl,
    capacity_abort_trace_single_draw ch0 raw0 p1 (insufficientTotalMsg 0 0)
      (by decide) rfl⟩

/-- C10: every error of `selectCharities`, of any kind, reaches the caller as
a single generic error whose message is "Charity selection failed: " followed
by the inner message; there is no richer error type to distinguish. -/
theorem selectCharities_error_wrapped (ch : Choices) (raw : List Charity)
    (profs : List RawUserProfile) :
    (∃ r, (selectCharities ch raw profs).1 = Except.ok r) ∨
    (∃ m, (selectCharities ch raw profs).1 =
      Except.error ("Charity selection failed: " ++ m)) := by
  unfold selectCharities
  cases profs with
  | nil => exact Or.inr ⟨_, rfl⟩
  | cons q qs =>
    cases hpq : parseUserProfile q with
    | error e =>
      simp only [hpq]
      exact Or.inr ⟨_, rfl⟩
    | ok up =>
      simp only [hpq]
      cases hsc : selectCore ch raw up with
      | mk r evs =>
        cases r with
        | error e =>
          simp only [hsc]
          exact Or.inr ⟨_, rfl⟩
        | ok res =>
          simp only [hsc]
          exact Or.inl ⟨_, rfl⟩
